import Mathlib

/-!
Verification of the SelectAutoroles bot core (src/bot.py): the role-selection
reconciler, the guild configuration store operations (add, remove, set, load,
save) and the persistence round trip.  Python values are embedded shallowly:
discord objects become structures, sets of role ids become `Finset Nat`,
fallible operations return `Option`, and outcomes reported to the user become
inductive outcome types.
-/

namespace SelectAutoroles

/-- A discord role as used by bot.py: its id, the id of the guild that owns it,
its hierarchy position and the `managed` flag. -/
structure Role where
  id : Nat
  guildId : Nat
  position : Nat
  managed : Bool
  deriving DecidableEq, Repr

/-- Model of `discord.Role.__lt__`: the default (everyone) role is the lowest,
then roles compare by position, with a position tie broken by the HIGHER id
being the lower role (`int(self.id) > int(other.id)`). -/
def roleLt (a b : Role) : Bool :=
  if a.id == a.guildId then b.id != a.guildId
  else if a.position < b.position then true
  else if a.position == b.position then b.id < a.id
  else false

/-- Model of `discord.Role.__ge__`: `a >= b` is `not a.__lt__(b)`. -/
def roleGe (a b : Role) : Bool :=
  ! roleLt a b

/-- Model of `discord.Role.is_default`: the role whose id equals the guild id. -/
def Role.is_default (r : Role) : Bool :=
  r.id == r.guildId

/-- A custom guild emoji: identified by id, resolvable by name. -/
structure CustomEmoji where
  id : Nat
  name : String
  deriving DecidableEq, Repr

/-- An emoji value held by an `Autorole`: a custom emoji object or a plain
unicode string, mirroring the `discord.Emoji | str` annotation in bot.py. -/
inductive PyEmoji where
  | custom (e : CustomEmoji)
  | unicode (s : String)
  deriving DecidableEq, Repr

/-- The `Autorole` attrs record of bot.py.  The emoji field is `Option` because
`Autorole.from_dict` can construct an entry whose custom emoji id no longer
resolves, storing Python `None` in the field. -/
structure Autorole where
  role : Role
  emoji : Option PyEmoji
  description : String
  «private» : Bool
  deriving DecidableEq, Repr

/-- The guild object as bot.py uses it: its id, role and emoji collections, the
top role of the bot member `guild.me`, the bot member id and the owner id, and
the always-present default role (discord guarantees `guild.default_role` is the
cached role whose id equals the guild id). -/
structure Guild where
  id : Nat
  roles : List Role
  emojis : List CustomEmoji
  meTopRole : Role
  meId : Nat
  ownerId : Nat
  defaultRole : Role
  deriving DecidableEq, Repr

/-- Model of `discord.Guild.get_role`: lookup by role id, `None` when absent. -/
def Guild.get_role (g : Guild) (roleId : Nat) : Option Role :=
  g.roles.find? (fun r => r.id == roleId)

/-- Model of `discord.Role.is_assignable` (py-cord): not the default role, not
managed, and the bot top role is strictly above it or the bot owns the guild. -/
def Role.is_assignable (r : Role) (g : Guild) : Bool :=
  ! r.is_default && ! r.managed && (roleLt r g.meTopRole || g.meId == g.ownerId)

/-- The `ServerConfig` attrs record of bot.py.  `discord.Color` is a wrapper
around its integer value and compares by that value, so the color field is
embedded directly as its optional integer value. -/
structure ServerConfig where
  member_role : Role
  color : Option Nat
  autoroles : List Autorole
  deriving DecidableEq, Repr

/-- `ServerConfig.from_guild`: default role as member role, no color, no
autoroles. -/
def ServerConfig.from_guild (g : Guild) : ServerConfig :=
  ⟨g.defaultRole, none, []⟩

/-- A guild member as bot.py consumes it here: only the top role matters for
visibility filtering. -/
structure Member where
  topRole : Role
  deriving DecidableEq, Repr

/-- `ServerConfig.available_autoroles`: all entries when the user top role is at
or above the member role and the member role is not the default role; otherwise
only the non-private entries. -/
def ServerConfig.available_autoroles (cfg : ServerConfig) (user : Member) : List Autorole :=
  if roleGe user.topRole cfg.member_role && ! cfg.member_role.is_default then
    cfg.autoroles
  else
    cfg.autoroles.filter (fun x => ! x.«private»)

/-- The removal set computed by `RoleSelect.callback` (src/bot.py line 146).
Python parses `user_roles & available_roles - selected_roles` as
`user_roles & (available_roles - selected_roles)` because the set difference
operator binds tighter than intersection. -/
def to_remove_ids (user_roles available_roles selected_roles : Finset Nat) : Finset Nat :=
  user_roles ∩ (available_roles \ selected_roles)

/-- The addition set computed by `RoleSelect.callback` (src/bot.py line 147):
`selected_roles - user_roles`. -/
def to_add_ids (user_roles selected_roles : Finset Nat) : Finset Nat :=
  selected_roles \ user_roles

/-- C1: for every currentRoles, offeredRoles, selectedRoles with selectedRoles a
subset of offeredRoles, the selection reconciler computes exactly
toRemove = (currentRoles ∩ offeredRoles) − selectedRoles and
toAdd = selectedRoles − currentRoles. -/
theorem reconciler_computes_spec_deltas
    (currentRoles offeredRoles selectedRoles : Finset Nat)
    (h : selectedRoles ⊆ offeredRoles) :
    to_remove_ids currentRoles offeredRoles selectedRoles
        = (currentRoles ∩ offeredRoles) \ selectedRoles ∧
    to_add_ids currentRoles selectedRoles = selectedRoles \ currentRoles := by
  refine ⟨?_, rfl⟩
  ext r
  simp only [to_remove_ids, Finset.mem_inter, Finset.mem_sdiff]
  tauto

/-- Witness for C1 at the concrete scenario from the spec: currentRoles {1,2,3},
offeredRoles {2,3,4}, selectedRoles {3,4}. -/
theorem reconciler_computes_spec_deltas_witness :
    ({3, 4} : Finset Nat) ⊆ {2, 3, 4} ∧
    (to_remove_ids {1, 2, 3} {2, 3, 4} {3, 4} = ({1, 2, 3} ∩ {2, 3, 4}) \ {3, 4} ∧
     to_add_ids {1, 2, 3} {3, 4} = ({3, 4} : Finset Nat) \ {1, 2, 3}) :=
  ⟨by decide, reconciler_computes_spec_deltas {1, 2, 3} {2, 3, 4} {3, 4} (by decide)⟩

/-- C2: for every currentRoles, offeredRoles, selectedRoles with selectedRoles a
subset of offeredRoles, the reconciler output satisfies toAdd ∩ toRemove = ∅,
toAdd ⊆ selectedRoles, toRemove ⊆ offeredRoles, and no role outside
offeredRoles appears in either output set. -/
theorem reconciler_output_bounds
    (currentRoles offeredRoles selectedRoles : Finset Nat)
    (h : selectedRoles ⊆ offeredRoles) :
    to_add_ids currentRoles selectedRoles
        ∩ to_remove_ids currentRoles offeredRoles selectedRoles = ∅ ∧
    to_add_ids currentRoles selectedRoles ⊆ selectedRoles ∧
    to_remove_ids currentRoles offeredRoles selectedRoles ⊆ offeredRoles ∧
    ∀ r, r ∉ offeredRoles →
      r ∉ to_add_ids currentRoles selectedRoles ∧
      r ∉ to_remove_ids currentRoles offeredRoles selectedRoles := by
  refine ⟨?_, ?_, ?_, ?_⟩
  · ext r
    simp only [to_add_ids, to_remove_ids, Finset.mem_inter, Finset.mem_sdiff,
      Finset.not_mem_empty, iff_false]
    tauto
  · intro r hr
    exact (Finset.mem_sdiff.mp hr).1
  · intro r hr
    simp only [to_remove_ids, Finset.mem_inter, Finset.mem_sdiff] at hr
    exact hr.2.1
  · intro r hr
    constructor
    · intro hc
      exact hr (h (Finset.mem_sdiff.mp hc).1)
    · intro hc
      simp only [to_remove_ids, Finset.mem_inter, Finset.mem_sdiff] at hc
      exact hr hc.2.1

/-- Witness for C2 at the same concrete scenario. -/
theorem reconciler_output_bounds_witness :
    ({3, 4} : Finset Nat) ⊆ {2, 3, 4} ∧
    (to_add_ids {1, 2, 3} {3, 4} ∩ to_remove_ids {1, 2, 3} {2, 3, 4} {3, 4} = ∅ ∧
     to_add_ids {1, 2, 3} {3, 4} ⊆ {3, 4} ∧
     to_remove_ids {1, 2, 3} {2, 3, 4} {3, 4} ⊆ {2, 3, 4} ∧
     ∀ r, r ∉ ({2, 3, 4} : Finset Nat) →
       r ∉ to_add_ids {1, 2, 3} {3, 4} ∧
       r ∉ to_remove_ids {1, 2, 3} {2, 3, 4} {3, 4}) :=
  ⟨by decide, reconciler_output_bounds {1, 2, 3} {2, 3, 4} {3, 4} (by decide)⟩

/-- Python equality between two discord roles: `discord.Role.__eq__` (the
EqualityComparable mixin) requires the other value to be a `Role` and then
compares ids. -/
def pyRoleEq (a b : Role) : Bool :=
  a.id == b.id

/-- Python equality between two emoji values as held by `Autorole.emoji`:
custom emoji compare by id (`discord.Emoji.__eq__`), strings by content, and a
custom emoji never equals a string. -/
def pyEmojiEq : PyEmoji → PyEmoji → Bool
  | .custom a, .custom b => a.id == b.id
  | .unicode a, .unicode b => a == b
  | _, _ => false

/-- Python equality lifted to the optional emoji field: `None == None` is true
and `None` never equals an emoji or string. -/
def pyOptEmojiEq : Option PyEmoji → Option PyEmoji → Bool
  | none, none => true
  | some a, some b => pyEmojiEq a b
  | _, _ => false

/-- Python equality between two `Autorole` records: attrs generates field-wise
equality, each field compared with Python `==`. -/
def pyAutoroleEq (a b : Autorole) : Bool :=
  pyRoleEq a.role b.role && pyOptEmojiEq a.emoji b.emoji &&
    a.description == b.description && a.«private» == b.«private»

/-- Python equality between a `discord.Role` and an `Autorole` record, as
evaluated by the membership test `role not in config.autoroles` in `add`
(src/bot.py line 293): `discord.Role.__eq__` requires the other value to be a
`Role` instance and the attrs-generated `Autorole.__eq__` requires the other
value to have class `Autorole`, so both return NotImplemented across the two
classes and Python falls back to identity, which is false for distinct
objects.  The comparison is therefore always false. -/
def pyRoleEqAutorole (_ : Role) (_ : Autorole) : Bool :=
  false

/-- Python membership test `role in autoroles` with `role : discord.Role` and
`autoroles : list[Autorole]`: true when some element compares equal. -/
def pyRoleInAutoroles (role : Role) (autoroles : List Autorole) : Bool :=
  autoroles.any (fun ar => pyRoleEqAutorole role ar)

/-- `is_defualt_emoji` (src/bot.py line 40): membership of the string among the
values of the DEFAULT_EMOJI map loaded from emoji_map.json; the map is external
to the repository, so its value list is a parameter here. -/
def is_defualt_emoji (defaultEmoji : List String) (s : String) : Bool :=
  defaultEmoji.contains s

/-- Model of `commands.EmojiConverter().convert` from the discord library:
resolves the argument to one of the custom emoji of the guild (represented here
as lookup by name), raising EmojiNotFound — `none` — when it does not
resolve. -/
def convertEmoji (g : Guild) (s : String) : Option CustomEmoji :=
  g.emojis.find? (fun e => e.name == s)

/-- The emoji validation of `add` (src/bot.py lines 294-301): a string that is
not a default emoji goes through the converter; a default emoji string is kept
as is. -/
def emojiResolution (defaultEmoji : List String) (g : Guild) (e : String) : Option PyEmoji :=
  if ! is_defualt_emoji defaultEmoji e then
    (convertEmoji g e).map .custom
  else
    some (.unicode e)

/-- Model of Python `str.strip` with no argument (src/bot.py line 291): remove
whitespace characters from both ends of the string. -/
def pyStrip (s : String) : String :=
  ⟨((s.data.dropWhile Char.isWhitespace).reverse.dropWhile Char.isWhitespace).reverse⟩

/-- The distinct user-visible outcomes of the `admin add` command. -/
inductive AddOutcome where
  | alreadyPresent
  | invalidEmoji
  | roleTooHigh
  | tooManyEntries
  | notAssignable
  | addedPrivateNoMemberRole
  | added
  deriving DecidableEq, Repr

/-- The `admin add` command handler (src/bot.py lines 288-340): strip the emoji
argument, test membership of the role among the autoroles (the Python test
compares a Role against Autorole records, see `pyRoleEqAutorole`), resolve the
emoji, then check the role against the bot top role, the 25-entry capacity and
assignability, and finally append the entry; the private-without-member-role
warning reuses the identity test `member_role is guild.default_role`, which
holds exactly when the member role id is the guild id. -/
def add (defaultEmoji : List String) (g : Guild) (cfg : ServerConfig)
    (emoji : String) (role : Role) (description : String) (priv : Bool) :
    AddOutcome × ServerConfig :=
  let e := pyStrip emoji
  if pyRoleInAutoroles role cfg.autoroles then
    (.alreadyPresent, cfg)
  else
    match emojiResolution defaultEmoji g e with
    | none => (.invalidEmoji, cfg)
    | some concrete =>
      if roleLt role g.meTopRole then
        if cfg.autoroles.length == 25 then
          (.tooManyEntries, cfg)
        else if ! role.is_assignable g then
          (.notAssignable, cfg)
        else
          let cfg1 : ServerConfig :=
            { cfg with autoroles := cfg.autoroles ++ [⟨role, some concrete, description, priv⟩] }
          if cfg.member_role.id == g.id && priv then
            (.addedPrivateNoMemberRole, cfg1)
          else
            (.added, cfg1)
      else
        (.roleTooHigh, cfg)

/-- Concrete test fixtures: guild 1 with its default role, an ordinary role 10,
a bot top role at position 10 and a role 50 above the bot top role. -/
def defRoleOne : Role := ⟨1, 1, 0, false⟩

def roleTen : Role := ⟨10, 1, 1, false⟩

def botTopRole : Role := ⟨99, 1, 10, false⟩

def roleFifty : Role := ⟨50, 1, 20, false⟩

def guildOne : Guild :=
  ⟨1, [defRoleOne, roleTen, botTopRole, roleFifty], [], botTopRole, 500, 900, defRoleOne⟩

/-- C3 (code bug): adding the same role twice does not return AlreadyPresent;
the membership check of `add` compares a discord Role against Autorole records
and never matches, so the second call appends a duplicate entry for role 10 and
the entry count becomes 2. -/
theorem add_twice_appends_duplicate :
    (add ["star"] guildOne (ServerConfig.from_guild guildOne) "star" roleTen "" false).fst
        = AddOutcome.added ∧
    (add ["star"] guildOne
        (add ["star"] guildOne (ServerConfig.from_guild guildOne) "star" roleTen "" false).snd
        "star" roleTen "" false).fst = AddOutcome.added ∧
    ((add ["star"] guildOne
        (add ["star"] guildOne (ServerConfig.from_guild guildOne) "star" roleTen "" false).snd
        "star" roleTen "" false).snd.autoroles.map (fun a => a.role.id)) = [10, 10] := by
  decide

/-- A configuration already holding 25 entries, all public with distinct
roles. -/
def fullConfig : ServerConfig :=
  ⟨defRoleOne, none,
    (List.range 25).map (fun i => ⟨⟨100 + i, 1, 1, false⟩, some (.unicode "star"), "", false⟩)⟩

/-- Counterexample for C4: on a guild already holding 25 entries, adding a role
that sits above the bot top role returns RoleTooHigh, not TooManyEntries — the
hierarchy check runs before the capacity check. -/
theorem add_at_capacity_counterexample :
    (add ["star"] guildOne fullConfig "star" roleFifty "" false).fst
        = AddOutcome.roleTooHigh ∧
    (add ["star"] guildOne fullConfig "star" roleFifty "" false).fst
        ≠ AddOutcome.tooManyEntries := by
  decide

/-- C4 as amended: `add` applies its validations in the order AlreadyPresent,
InvalidEmoji, RoleTooHigh, TooManyEntries, NotAssignable; on a guild already
holding 25 entries it returns TooManyEntries exactly when the emoji resolves
and the role is strictly below the bot top role, and otherwise returns the
earlier InvalidEmoji or RoleTooHigh outcome, in every case without mutation. -/
theorem add_validation_order_at_capacity (defaultEmoji : List String) (g : Guild)
    (cfg : ServerConfig) (emoji : String) (role : Role) (d : String) (p : Bool)
    (hfull : cfg.autoroles.length = 25) :
    (∀ ce, emojiResolution defaultEmoji g (pyStrip emoji) = some ce →
       (roleLt role g.meTopRole = true →
          add defaultEmoji g cfg emoji role d p = (.tooManyEntries, cfg)) ∧
       (roleLt role g.meTopRole = false →
          add defaultEmoji g cfg emoji role d p = (.roleTooHigh, cfg))) ∧
    (emojiResolution defaultEmoji g (pyStrip emoji) = none →
       add defaultEmoji g cfg emoji role d p = (.invalidEmoji, cfg)) := by
  have hmem : pyRoleInAutoroles role cfg.autoroles = false := by
    simp [pyRoleInAutoroles, pyRoleEqAutorole]
  constructor
  · intro ce hce
    constructor
    · intro hlt
      simp [add, hmem, hce, hlt, hfull]
    · intro hlt
      simp [add, hmem, hce, hlt]
  · intro hce
    simp [add, hmem, hce]

/-- Witness for C4 as amended: the full configuration with a resolvable emoji
and a role below the bot top role yields TooManyEntries. -/
theorem add_validation_order_at_capacity_witness :
    (add ["star"] guildOne fullConfig "star" roleTen "" false)
        = (AddOutcome.tooManyEntries, fullConfig) :=
  ((add_validation_order_at_capacity ["star"] guildOne fullConfig "star" roleTen "" false
      (by decide)).1 (.unicode "star") (by decide)).1 (by decide)

/-- A JSON value stored in the emoji field of a persisted autorole entry: an
integer (custom emoji id), a string (unicode emoji), or null (the entry was
loaded with an unresolvable custom emoji and saved again). -/
inductive EmojiData where
  | id (n : Nat)
  | str (s : String)
  | null
  deriving DecidableEq, Repr

/-- A persisted autorole entry, the dictionary produced by `attrs.asdict` with
the value serializer of `save` (src/bot.py lines 455-471): the role serializes
to its id, a custom emoji to its id, a string emoji to itself. -/
structure AutoroleData where
  role : Nat
  emoji : EmojiData
  description : String
  «private» : Bool
  deriving DecidableEq, Repr

/-- A persisted guild configuration: the member role id, the optional color
value and the list of persisted autorole entries. -/
structure ServerConfigData where
  member_role : Nat
  color : Option Nat
  autoroles : List AutoroleData
  deriving DecidableEq, Repr

/-- The value serializer of `save` applied to the emoji field. -/
def serializeEmoji : Option PyEmoji → EmojiData
  | some (.custom e) => .id e.id
  | some (.unicode s) => .str s
  | none => .null

/-- `attrs.asdict` with the value serializer of `save`, on one `Autorole`. -/
def serializeAutorole (a : Autorole) : AutoroleData :=
  ⟨a.role.id, serializeEmoji a.emoji, a.description, a.«private»⟩

/-- `attrs.asdict` with the value serializer of `save`, on one `ServerConfig`:
the member role serializes to its id and the color to its integer value. -/
def serializeServerConfig (c : ServerConfig) : ServerConfigData :=
  ⟨c.member_role.id, c.color, c.autoroles.map serializeAutorole⟩

/-- The emoji resolution of `Autorole.from_dict` (src/bot.py lines 54-57): an
integer is looked up among the guild custom emoji — yielding Python `None` when
absent — while any other value is kept as is. -/
def loadedEmoji (g : Guild) : EmojiData → Option PyEmoji
  | .id n => (g.emojis.find? (fun e => e.id == n)).map .custom
  | .str s => some (.unicode s)
  | .null => none

/-- `Autorole.from_dict` (src/bot.py lines 51-58): resolve the role id against
the guild and the emoji against the guild emoji collection; the entry is
returned only when the ROLE resolves (`if role else None`); the emoji field
keeps whatever the emoji resolution produced, including `None`. -/
def Autorole.from_dict (g : Guild) (d : AutoroleData) : Option Autorole :=
  match g.get_role d.role with
  | some role => some ⟨role, loadedEmoji g d.emoji, d.description, d.«private»⟩
  | none => none

/-- `ServerConfig.from_dict` (src/bot.py lines 78-88): the member role id is
resolved against the guild with the default role as fallback, the color value
is rewrapped, and the autorole entries that load to `None` are dropped by the
list comprehension filter. -/
def ServerConfig.from_dict (g : Guild) (d : ServerConfigData) : ServerConfig :=
  ⟨(g.get_role d.member_role).getD g.defaultRole,
   d.color,
   d.autoroles.filterMap (Autorole.from_dict g)⟩

/-- Whether the emoji reference of an entry still resolves against the live
guild: a custom emoji must be found again by its id; a unicode string or an
absent emoji always resolves. -/
def emojiResolves (g : Guild) : Option PyEmoji → Bool
  | some (.custom e) => decide (g.emojis.find? (fun x => x.id == e.id) = some e)
  | _ => true

theorem from_dict_serializeAutorole (g : Guild) (a : Autorole)
    (hr : g.get_role a.role.id = some a.role)
    (he : emojiResolves g a.emoji = true) :
    Autorole.from_dict g (serializeAutorole a) = some a := by
  obtain ⟨role, emoji, d, p⟩ := a
  simp only [Autorole.from_dict, serializeAutorole] at *
  rw [hr]
  match emoji with
  | none => rfl
  | some (.unicode s) => rfl
  | some (.custom e) =>
    simp only [serializeEmoji, loadedEmoji]
    rw [of_decide_eq_true he]
    rfl

theorem filterMap_from_dict_serialize (g : Guild) (l : List Autorole)
    (hr : ∀ a ∈ l, g.get_role a.role.id = some a.role)
    (he : ∀ a ∈ l, emojiResolves g a.emoji = true) :
    (l.map serializeAutorole).filterMap (Autorole.from_dict g) = l := by
  induction l with
  | nil => rfl
  | cons a t ih =>
    simp only [List.map_cons, List.filterMap_cons]
    rw [from_dict_serializeAutorole g a (hr a (List.mem_cons_self a t))
      (he a (List.mem_cons_self a t))]
    rw [ih (fun x hx => hr x (List.mem_cons_of_mem a hx))
      (fun x hx => he x (List.mem_cons_of_mem a hx))]

/-- C5: saving followed by loading reproduces an equivalent configuration
(member role, color and every autorole entry) for every guild whose referenced
roles and custom emoji still resolve against the live guild. -/
theorem save_load_round_trip (g : Guild) (cfg : ServerConfig)
    (hm : g.get_role cfg.member_role.id = some cfg.member_role)
    (hr : ∀ a ∈ cfg.autoroles, g.get_role a.role.id = some a.role)
    (he : ∀ a ∈ cfg.autoroles, emojiResolves g a.emoji = true) :
    ServerConfig.from_dict g (serializeServerConfig cfg) = cfg := by
  obtain ⟨mr, col, ars⟩ := cfg
  simp only [ServerConfig.from_dict, serializeServerConfig] at *
  rw [hm]
  rw [filterMap_from_dict_serialize g ars hr he]
  rfl

/-- A guild with a custom emoji, for the round-trip witness. -/
def starEmoji : CustomEmoji := ⟨555, "star"⟩

def guildThree : Guild :=
  ⟨3, [⟨3, 3, 0, false⟩, ⟨30, 3, 2, false⟩, ⟨31, 3, 3, false⟩], [starEmoji],
    ⟨31, 3, 3, false⟩, 500, 900, ⟨3, 3, 0, false⟩⟩

def richConfig : ServerConfig :=
  ⟨⟨30, 3, 2, false⟩, some 255,
    [⟨⟨31, 3, 3, false⟩, some (.custom starEmoji), "a custom one", true⟩,
     ⟨⟨30, 3, 2, false⟩, some (.unicode "smile"), "", false⟩]⟩

/-- Witness for C5: a concrete configuration with a resolvable member role, a
custom emoji entry and a unicode emoji entry round-trips exactly. -/
theorem save_load_round_trip_witness :
    ServerConfig.from_dict guildThree (serializeServerConfig richConfig) = richConfig :=
  save_load_round_trip guildThree richConfig (by decide) (by decide) (by decide)

/-- A persisted entry whose role resolves against guild 1 but whose custom
emoji id 555 does not (guild 1 has no custom emoji). -/
def staleEmojiData : AutoroleData := ⟨10, .id 555, "d", false⟩

/-- Counterexample for C6: an entry whose stored custom emoji id no longer
resolves is NOT dropped; it is loaded with the emoji field set to None. -/
theorem stale_emoji_entry_kept :
    Autorole.from_dict guildOne staleEmojiData ≠ none ∧
    Autorole.from_dict guildOne staleEmojiData = some ⟨roleTen, none, "d", false⟩ := by
  decide

/-- C6 as amended: during persisted-state load an entry is dropped exactly when
its stored role id no longer resolves against the live guild; an entry whose
role resolves is kept even when its custom emoji id does not resolve, with an
absent emoji; the remaining entries are loaded, and loading is a total
function, so it never fails because of stale references. -/
theorem autorole_load_drop_policy (g : Guild) (d : AutoroleData) :
    (Autorole.from_dict g d = none ↔ g.get_role d.role = none) ∧
    (∀ r, g.get_role d.role = some r →
       Autorole.from_dict g d = some ⟨r, loadedEmoji g d.emoji, d.description, d.«private»⟩) ∧
    ∀ dc : ServerConfigData,
      (ServerConfig.from_dict g dc).autoroles = dc.autoroles.filterMap (Autorole.from_dict g) := by
  refine ⟨?_, ?_, fun dc => rfl⟩
  · unfold Autorole.from_dict
    cases g.get_role d.role with
    | none => simp
    | some r => simp
  · intro r hres
    unfold Autorole.from_dict
    rw [hres]

/-- Witness for C6 as amended, at the stale-emoji entry on guild 1. -/
theorem autorole_load_drop_policy_witness :
    Autorole.from_dict guildOne staleEmojiData
      = some ⟨roleTen, loadedEmoji guildOne staleEmojiData.emoji, staleEmojiData.description,
          staleEmojiData.«private»⟩ :=
  (autorole_load_drop_policy guildOne staleEmojiData).2.1 roleTen (by decide)

/-- The configuration store after `on_ready` (src/bot.py lines 437-452): a
default configuration is first created for every guild the bot is in; then,
when the persisted file exists (`db` is `some`), the whole mapping is replaced
by a dictionary built only from the guilds present in the file, discarding the
defaults; when the file is missing (`FileNotFoundError`), the defaults remain.
The result is `none` when a guild id in the file no longer resolves
(`bot.get_guild` returns None and `from_dict` then faults). -/
def onReadyConfigs (guilds : List Guild) (db : Option (List (Nat × ServerConfigData))) :
    Option (List (Nat × ServerConfig)) :=
  let defaults := guilds.map (fun g => (g.id, ServerConfig.from_guild g))
  match db with
  | none => some defaults
  | some entries =>
    entries.mapM (fun p =>
      (guilds.find? (fun g => g.id == p.fst)).map
        (fun g => (p.fst, ServerConfig.from_dict g p.snd)))

/-- Dictionary lookup in the configuration store, `bot.configs[guild_id]`:
`none` is a KeyError. -/
def storeLookup (store : List (Nat × ServerConfig)) (gid : Nat) : Option ServerConfig :=
  (store.find? (fun p => p.fst == gid)).map (fun p => p.snd)

def guildTwo : Guild :=
  ⟨2, [⟨2, 2, 0, false⟩], [], ⟨2, 2, 0, false⟩, 500, 900, ⟨2, 2, 0, false⟩⟩

/-- C7 (code bug): with the bot in guilds 1 and 2 and a persisted file holding
only guild 1, loading replaces the whole store with the file contents, so guild
2 — which has a default configuration when no file exists — is left with no
configuration at all instead of keeping the default created just before the
load. -/
theorem load_discards_absent_guild_defaults :
    (onReadyConfigs [guildOne, guildTwo] (some [(1, ⟨1, none, []⟩)])).map
        (fun s => storeLookup s 2) = some none ∧
    (onReadyConfigs [guildOne, guildTwo] none).map (fun s => storeLookup s 2)
        = some (some (ServerConfig.from_guild guildTwo)) := by
  decide

/-- An uppercase hexadecimal digit, the character class `[0-9A-F]` of the regex
in `set_config` (src/bot.py line 399). -/
def isUpperHexDigit (c : Char) : Bool :=
  (decide (48 ≤ c.toNat) && decide (c.toNat ≤ 57)) ||
    (decide (65 ≤ c.toNat) && decide (c.toNat ≤ 70))

/-- Model of `re.compile("[0-9A-F]{6}").match(s)` being truthy: with no
anchors, `match` succeeds exactly when the string has at least six characters
and its FIRST six characters are uppercase hex digits; later characters are
unconstrained. -/
def matchSixUpperHex (s : String) : Bool :=
  decide (6 ≤ s.data.length) && (s.data.take 6).all isUpperHexDigit

/-- The value of one hexadecimal digit of either case, `none` otherwise. -/
def hexDigitVal (c : Char) : Option Nat :=
  if decide (48 ≤ c.toNat) && decide (c.toNat ≤ 57) then
    some (c.toNat - 48)
  else if decide (97 ≤ c.toNat) && decide (c.toNat ≤ 102) then
    some (c.toNat - 97 + 10)
  else if decide (65 ≤ c.toNat) && decide (c.toNat ≤ 70) then
    some (c.toNat - 65 + 10)
  else
    none

/-- The tail of a Python base-16 integer literal after its first digit: hex
digits of either case, with single underscores allowed strictly between two
digits. -/
def parseHexTail : List Char → Nat → Option Nat
  | [], acc => some acc
  | [c], acc =>
    if c.toNat == 95 then none
    else
      match hexDigitVal c with
      | some v => parseHexTail [] (acc * 16 + v)
      | none => none
  | c :: c2 :: rest, acc =>
    if c.toNat == 95 then
      match hexDigitVal c2 with
      | some v => parseHexTail rest (acc * 16 + v)
      | none => none
    else
      match hexDigitVal c with
      | some v => parseHexTail (c2 :: rest) (acc * 16 + v)
      | none => none

/-- Model of Python `int(s, 16)` as reached from `set_config`: surrounding
whitespace is stripped, then the body must be hex digits of either case with
single underscores between digits.  A sign or 0x prefix is not modelled: every
string reaching this call starts with an uppercase hex digit, which excludes
both.  `none` is a ValueError. -/
def pyIntHex (s : String) : Option Nat :=
  match (pyStrip s).data with
  | [] => none
  | c :: rest =>
    match hexDigitVal c with
    | some v => parseHexTail rest v
    | none => none

/-- The user-visible outcomes of the color branch of `admin set`. -/
inductive SetColorOutcome where
  | invalidFormat
  | unchanged
  | updated
  | raisedValueError
  deriving DecidableEq, Repr

/-- The color branch of the `admin set` handler (src/bot.py lines 398-407):
reject when the unanchored uppercase-hex regex does not match, otherwise parse
the WHOLE string with `int(color, 16)` — which raises a ValueError out of the
handler when the string continues with non-hex characters — then compare the
wrapped color against the stored one by value and either keep or update it. -/
def setColor (cfg : ServerConfig) (color : String) : SetColorOutcome × ServerConfig :=
  if ! matchSixUpperHex color then
    (.invalidFormat, cfg)
  else
    match pyIntHex color with
    | none => (.raisedValueError, cfg)
    | some v =>
      if cfg.color == some v then
        (.unchanged, cfg)
      else
        (.updated, { cfg with color := some v })

/-- Follows the words of the spec for comparison: the argument is exactly six
hexadecimal digits. -/
def specSixHexDigits (s : String) : Bool :=
  decide (s.data.length = 6) && s.data.all (fun c => (hexDigitVal c).isSome)

/-- Counterexample for C8: the string 00ff00 is exactly six hexadecimal digits
yet setColor reports InvalidFormat for it (the regex accepts only uppercase),
while the eight-character string 0000FF00 is not six hexadecimal digits yet
setColor accepts it and updates the color (the regex is not anchored at the
end). -/
theorem setColor_case_and_anchor_counterexample :
    specSixHexDigits "00ff00" = true ∧
    (setColor (ServerConfig.from_guild guildOne) "00ff00").fst
        = SetColorOutcome.invalidFormat ∧
    specSixHexDigits "0000FF00" = false ∧
    (setColor (ServerConfig.from_guild guildOne) "0000FF00").fst
        = SetColorOutcome.updated := by
  decide

/-- C8 as amended: setColor reports InvalidFormat with no mutation exactly when
the argument does not start with six uppercase hexadecimal digits; when it
does, the whole string is parsed as a hexadecimal integer — an unhandled
ValueError escapes when the remainder is not hex — and on success the outcome
is Unchanged when the value equals the stored color and Updated, with the color
stored, otherwise. -/
theorem setColor_branch_behavior (cfg : ServerConfig) (s : String) :
    (matchSixUpperHex s = false →
       setColor cfg s = (.invalidFormat, cfg)) ∧
    (matchSixUpperHex s = true → pyIntHex s = none →
       setColor cfg s = (.raisedValueError, cfg)) ∧
    ∀ v, matchSixUpperHex s = true → pyIntHex s = some v →
       (cfg.color = some v → setColor cfg s = (.unchanged, cfg)) ∧
       (cfg.color ≠ some v →
          setColor cfg s = (.updated, { cfg with color := some v })) := by
  refine ⟨?_, ?_, ?_⟩
  · intro hm
    simp [setColor, hm]
  · intro hm hp
    simp [setColor, hm, hp]
  · intro v hm hp
    constructor
    · intro hc
      simp [setColor, hm, hp, hc]
    · intro hc
      have hbeq : (cfg.color == some v) = false := by
        cases hv : cfg.color == some v
        · rfl
        · exact absurd (eq_of_beq hv) hc
      simp [setColor, hm, hp, hbeq]

/-- Witness for C8 as amended: the valid string 0000FF on a configuration with
no color set yields Updated and stores the value 255. -/
theorem setColor_branch_behavior_witness :
    setColor (ServerConfig.from_guild guildOne) "0000FF"
      = (SetColorOutcome.updated,
         { ServerConfig.from_guild guildOne with color := some 255 }) :=
  (((setColor_branch_behavior (ServerConfig.from_guild guildOne) "0000FF").2.2
      255 (by decide) (by decide)).2 (by decide))

/-- The `admin remove` handler (src/bot.py lines 357-363): find the first entry
whose role compares equal to the argument — `next` raising StopIteration, the
caught branch, when there is none — and delete from the list the first entry
that compares equal to the found one. -/
def removeAutorole (cfg : ServerConfig) (role : Role) : Bool × ServerConfig :=
  match cfg.autoroles.find? (fun r => pyRoleEq r.role role) with
  | none => (false, cfg)
  | some found =>
    (true, { cfg with autoroles := cfg.autoroles.eraseP (fun x => pyAutoroleEq x found) })

theorem pyAutoroleEq_refl (a : Autorole) : pyAutoroleEq a a = true := by
  obtain ⟨role, emoji, d, p⟩ := a
  match emoji with
  | none => simp [pyAutoroleEq, pyRoleEq, pyOptEmojiEq]
  | some (.custom e) => simp [pyAutoroleEq, pyRoleEq, pyOptEmojiEq, pyEmojiEq]
  | some (.unicode s) => simp [pyAutoroleEq, pyRoleEq, pyOptEmojiEq, pyEmojiEq]

/-- C9: removeAutorole returns true exactly when an entry whose role compares
equal to the given role exists — in which case one entry is removed — and
returns false with the configuration unchanged otherwise; it is a total
function, so a missing role never raises an error. -/
theorem removeAutorole_spec (cfg : ServerConfig) (role : Role) :
    ((removeAutorole cfg role).fst = true ↔
       ∃ a ∈ cfg.autoroles, pyRoleEq a.role role = true) ∧
    ((removeAutorole cfg role).fst = false → (removeAutorole cfg role).snd = cfg) ∧
    ((removeAutorole cfg role).fst = true →
       (removeAutorole cfg role).snd.autoroles.length + 1 = cfg.autoroles.length) := by
  refine ⟨?_, ?_, ?_⟩
  · constructor
    · intro ht
      cases hf : cfg.autoroles.find? (fun r => pyRoleEq r.role role) with
      | none => simp [removeAutorole, hf] at ht
      | some found =>
        have hp := List.find?_some hf
        exact ⟨found, List.mem_of_find?_eq_some hf, hp⟩
    · intro hex
      obtain ⟨a, ha, hpa⟩ := hex
      cases hf : cfg.autoroles.find? (fun r => pyRoleEq r.role role) with
      | none =>
        have hnone := List.find?_eq_none.mp hf a ha
        simp [hpa] at hnone
      | some found => simp [removeAutorole, hf]
  · intro hfalse
    cases hf : cfg.autoroles.find? (fun r => pyRoleEq r.role role) with
    | none => simp [removeAutorole, hf]
    | some found => simp [removeAutorole, hf] at hfalse
  · intro ht
    cases hf : cfg.autoroles.find? (fun r => pyRoleEq r.role role) with
    | none => simp [removeAutorole, hf] at ht
    | some found =>
      simp only [removeAutorole, hf]
      exact List.length_eraseP_add_one (List.mem_of_find?_eq_some hf)
        (pyAutoroleEq_refl found)

/-- Witness for C9, matching the scenario of the spec: removing role 999 from a
guild with no such entry returns false and leaves the configuration
unchanged. -/
theorem removeAutorole_spec_witness :
    (removeAutorole richConfig ⟨999, 3, 1, false⟩).fst = false ∧
    (removeAutorole richConfig ⟨999, 3, 1, false⟩).snd = richConfig :=
  ⟨by decide, (removeAutorole_spec richConfig ⟨999, 3, 1, false⟩).2.1 (by decide)⟩

/-- The observable outcomes of the `roles` slash command. -/
inductive RolesOutcome where
  | selectMenu (options : List Autorole)
  | noAutorolesConfigured
  | unboundLocalView
  deriving DecidableEq, Repr

/-- The `roles` slash command handler (src/bot.py lines 156-165): with no
autoroles configured it replies that none are configured; with autoroles
available to the caller it opens the selection menu; but when autoroles exist
and none is available, the else branch passes `view=view` where the local
variable `view` was never assigned on that path, so evaluating the reply
raises UnboundLocalError instead of sending the no-public-autoroles message. -/
def rolesCommand (cfg : ServerConfig) (user : Member) : RolesOutcome :=
  if cfg.autoroles.isEmpty then
    .noAutorolesConfigured
  else if (cfg.available_autoroles user).isEmpty then
    .unboundLocalView
  else
    .selectMenu (cfg.available_autoroles user)

def memberRoleFive : Role := ⟨5, 1, 5, false⟩

/-- A guild-1 configuration whose only autorole entry is private, with a
non-default member role. -/
def privateOnlyConfig : ServerConfig :=
  ⟨memberRoleFive, none, [⟨roleTen, some (.unicode "star"), "", true⟩]⟩

/-- A caller whose top role sits below the member role. -/
def lowMember : Member := ⟨⟨7, 1, 2, false⟩⟩

/-- C10 (code bug): for a caller to whom no configured entry is visible, the
command neither opens the menu nor sends the no-public-autoroles reply; it
trips over the unbound local `view` — an unhandled fault — even though entries
are configured and the available list is empty. -/
theorem roles_command_unbound_local :
    rolesCommand privateOnlyConfig lowMember = RolesOutcome.unboundLocalView ∧
    privateOnlyConfig.autoroles ≠ [] ∧
    privateOnlyConfig.available_autoroles lowMember = [] := by
  decide

end SelectAutoroles
